import Mathlib

/-!
Verification of the Book Review API (`app_start.py`) against its
specification.

The source is a single-file FastAPI application.  We give a shallow
embedding: the database (two tables, `books` and `reviews`, each with an
autoincrementing integer primary key) becomes an explicit `DB` state; every
request handler becomes a Lean function from its inputs and the pre-state to
its HTTP result paired with the post-state.  The ORM idiom
`db.query(M).filter(M.c == v).first()` is the first row satisfying the
predicate (`List.find?`); `.all()` with a filter is `List.filter`; updating
the object returned by `.first()` and committing mutates the first matching
row in place; `db.delete` removes that row.  The external text-generation
client (`OllamaLLM(model="llama3").invoke`) is an arbitrary function
`llm : String → String` — `invoke` on a langchain `LLM` returns the response
text as a plain string, which is exactly how `get_summary` consumes it.
Python's arbitrary-precision integers are `Int`; the float division in
`get_summary` is modelled exactly in `ℚ` (the dividend is an exact Python
`int` sum, so the real-number value of the quotient is this rational).
-/

namespace BookReviewAPI

/-- The value of the pydantic field `year_published: Optional[int] = ""` in
`class Book`.  A supplied value is validated to an `int` or an explicit JSON
`null`; a *missing* field takes the declared default, which in the source is
the string `""` (pydantic v1 does not validate defaults), so the unvalidated
empty-string sentinel is a reachable third value. -/
inductive YearField where
  | null : YearField
  | intVal : Int → YearField
  | emptyStrDefault : YearField
deriving DecidableEq, Repr

/-- Pydantic request/response model `Book` (`app_start.py` lines 39-48).
`id` is optional and ignored on input paths; `genre` and `summary` are
`Optional[str]` defaulting to `""`; `year_published` defaults to the
ill-typed `""` sentinel (see `YearField`). -/
structure Book where
  id : Option Int := none
  title : String
  author : String
  genre : Option String := some ""
  year_published : YearField := .emptyStrDefault
  summary : Option String := some ""
deriving DecidableEq, Repr

/-- Pydantic request/response model `Review` (lines 51-59).  `book_id` may be
carried in the payload but `add_review` ignores it. -/
structure Review where
  id : Option Int := none
  book_id : Option Int := none
  user_id : Int
  review_text : String
  rating : Int
deriving DecidableEq, Repr

/-- Response model `Summary` (lines 62-64): generated text plus a numeric
rating.  The Python `float` rating is modelled exactly as a rational. -/
structure Summary where
  summary : String
  rating : ℚ
deriving DecidableEq, Repr

/-- A row of the `books` table (`class BookModel`, lines 67-75). -/
structure BookRow where
  id : Int
  title : String
  author : String
  genre : Option String
  year_published : YearField
  summary : Option String
deriving DecidableEq, Repr

/-- A row of the `reviews` table (`class ReviewModel`, lines 78-85). -/
structure ReviewRow where
  id : Int
  book_id : Int
  user_id : Int
  review_text : String
  rating : Int
deriving DecidableEq, Repr

/-- The persistent store: the two tables in insertion order, plus the next
value of each autoincrementing primary key. -/
structure DB where
  books : List BookRow
  reviews : List ReviewRow
  nextBookId : Int := 1
  nextReviewId : Int := 1
deriving DecidableEq, Repr

/-- `raise HTTPException(status_code=..., detail=...)`. -/
structure HTTPError where
  status_code : Nat
  detail : String
deriving DecidableEq, Repr

/-- Replace the first row satisfying `p` by `y`, leaving the rest unchanged:
the effect of mutating the object returned by `.filter(...).first()` and
committing. -/
def replaceFirst (p : α → Bool) (y : α) : List α → List α
  | [] => []
  | x :: xs => if p x then y :: xs else x :: replaceFirst p y xs

/-- Remove the first row satisfying `p`: the effect of `db.delete(row)` on
the row returned by `.filter(...).first()`. -/
def removeFirst (p : α → Bool) : List α → List α
  | [] => []
  | x :: xs => if p x then xs else x :: removeFirst p xs

/-- `POST /books` — `add_book` (lines 107-120).  Inserts a row built from the
payload's fields, the primary key generated by autoincrement, and returns the
refreshed row.  (`Base.metadata.create_all` only ensures the schema exists
and has no effect on the modelled state.) -/
def add_book (book : Book) (db : DB) : BookRow × DB :=
  let db_book : BookRow :=
    { id := db.nextBookId
      title := book.title
      author := book.author
      genre := book.genre
      year_published := book.year_published
      summary := book.summary }
  (db_book, { db with books := db.books ++ [db_book], nextBookId := db.nextBookId + 1 })

/-- `GET /books` — `get_books` (lines 123-126): all rows of `books`. -/
def get_books (db : DB) : List BookRow × DB :=
  (db.books, db)

/-- `GET /books/{id}` — `get_book` (lines 129-134): first row with matching
`id`, 404 if none. -/
def get_book (id : Int) (db : DB) : Except HTTPError BookRow × DB :=
  match db.books.find? (fun r => r.id == id) with
  | none => (.error ⟨404, "Book not found"⟩, db)
  | some book => (.ok book, db)

/-- `PUT /books/{id}` — `update_book` (lines 137-151): 404 if no row matches;
otherwise every mutable field of the matched row is overwritten with the
payload's value (the primary key is untouched) and the refreshed row
returned. -/
def update_book (id : Int) (book : Book) (db : DB) : Except HTTPError BookRow × DB :=
  match db.books.find? (fun r => r.id == id) with
  | none => (.error ⟨404, "Book not found"⟩, db)
  | some db_book =>
    let updated : BookRow :=
      { db_book with
        title := book.title
        author := book.author
        genre := book.genre
        year_published := book.year_published
        summary := book.summary }
    (.ok updated, { db with books := replaceFirst (fun r => r.id == id) updated db.books })

/-- `DELETE /books/{id}` — `delete_book` (lines 154-161): 404 if no row
matches; otherwise the matched row is removed.  Nothing touches the
`reviews` table (no cascade). -/
def delete_book (id : Int) (db : DB) : Except HTTPError String × DB :=
  match db.books.find? (fun r => r.id == id) with
  | none => (.error ⟨404, "Book not found"⟩, db)
  | some _ =>
    (.ok "Book deleted successfully", { db with books := removeFirst (fun r => r.id == id) db.books })

/-- `POST /books/{id}/reviews` — `add_review` (lines 164-180): 404 if the
parent book is absent and nothing is written; otherwise a review row is
inserted whose `book_id` is the *found book's* id (the payload's `book_id`
is never read), with `user_id`, `review_text` and `rating` copied verbatim
from the payload. -/
def add_review (id : Int) (review : Review) (db : DB) : Except HTTPError ReviewRow × DB :=
  match db.books.find? (fun r => r.id == id) with
  | none => (.error ⟨404, "Book not found"⟩, db)
  | some book =>
    let db_review : ReviewRow :=
      { id := db.nextReviewId
        book_id := book.id
        user_id := review.user_id
        review_text := review.review_text
        rating := review.rating }
    (.ok db_review, { db with reviews := db.reviews ++ [db_review], nextReviewId := db.nextReviewId + 1 })

/-- `GET /books/{id}/reviews` — `get_reviews` (lines 183-189): all review
rows whose `book_id` equals the path id; 404 if that set is empty (the
`books` table is never consulted). -/
def get_reviews (id : Int) (db : DB) : Except HTTPError (List ReviewRow) × DB :=
  let reviews := db.reviews.filter (fun rv => rv.book_id == id)
  if reviews.isEmpty then (.error ⟨404, "No reviews found for this book"⟩, db)
  else (.ok reviews, db)

/-- `GET /books/{id}/summary` — `get_summary` (lines 192-208): 404 if the
book is absent, 404 if it has no reviews; otherwise the rating is
`sum(review.rating for review in reviews) / len(reviews)` (exact in `ℚ`:
the numerator is an exact Python `int`) and the summary is the client's
response to the concatenated review texts. -/
def get_summary (llm : String → String) (id : Int) (db : DB) : Except HTTPError Summary × DB :=
  match db.books.find? (fun r => r.id == id) with
  | none => (.error ⟨404, "Book not found"⟩, db)
  | some _ =>
    let reviews := db.reviews.filter (fun rv => rv.book_id == id)
    if reviews.isEmpty then (.error ⟨404, "No reviews found for this book"⟩, db)
    else
      let summary_texts := reviews.map (fun rv => rv.review_text)
      let average_rating : ℚ := ((reviews.map (fun rv => rv.rating)).sum : Int) / (reviews.length : ℚ)
      let response := llm ("Summarize the following reviews: " ++ String.intercalate " " summary_texts)
      (.ok { summary := response, rating := average_rating }, db)

/-- The hardcoded example preferences of `get_recommendations` (line 213). -/
def user_preferences : List String := ["fiction", "adventure", "mystery"]

/-- Iterating a Python `str` yields its characters, so using the raw response
string as the argument of `BookModel.title.in_(...)` compares the title
column against each single-character element of the string. -/
def strElems (s : String) : List String :=
  s.toList.map (fun c => String.singleton c)

/-- Sequence a list of optional values: `none` as soon as any element is
`None`, otherwise the list of the unwrapped values. -/
def seqOpt : List (Option α) → Option (List α)
  | [] => some []
  | none :: _ => none
  | some a :: xs => (seqOpt xs).map (fun ys => a :: ys)

/-- Python's `sep.join(xs)` over a list whose elements may be `None` (a
stored `NULL` summary): `str.join` raises `TypeError` on the first `None`
element — modelled as `none` — and otherwise returns the separator-joined
string. -/
def pyJoin (sep : String) (xs : List (Option String)) : Option String :=
  (seqOpt xs).map (String.intercalate sep)

/-- The prompt f-string of `get_recommendations` (lines 220-224): the
hardcoded preferences, all stored titles and all stored summaries, comma
joined.  `none` when some stored summary is `NULL`: the summaries'
`", ".join(book_summaries)` raises `TypeError` while the prompt is being
built, before the client is invoked.  (Titles are non-nullable on every
path, so their join always succeeds.) -/
def recommendation_prompt (db : DB) : Option String :=
  (pyJoin ", " (db.books.map (fun b => b.summary))).map (fun summaries =>
    "Based on the following user preferences: " ++
      String.intercalate ", " user_preferences ++
      ", recommend books from the following list: " ++
      String.intercalate ", " (db.books.map (fun b => b.title)) ++
      " with summaries: " ++ summaries)

/-- A handler outcome: a deliberate `HTTPException`, or an unhandled Python
`TypeError` escaping the handler (surfaced by the framework as a 500). -/
inductive HandlerError where
  | http : HTTPError → HandlerError
  | typeError : HandlerError
deriving DecidableEq, Repr

/-- `GET /recommendations` — `get_recommendations` (lines 211-228): 404 if no
books are stored; an unhandled `TypeError` if building the prompt hits a
`NULL` summary (see `recommendation_prompt`); otherwise the client's raw
response string is used directly as the `in_` filter against the title
column — never parsed into a list of titles — so the result is the stored
books whose title is an element of the iterated response (see `strElems`). -/
def get_recommendations (llm : String → String) (db : DB) :
    Except HandlerError (List BookRow) × DB :=
  let books := db.books
  if books.isEmpty then (.error (.http ⟨404, "No books found"⟩), db)
  else
    match recommendation_prompt db with
    | none => (.error .typeError, db)
    | some prompt =>
      let response := llm prompt
      let recommended_books := books.filter (fun b => (strElems response).contains b.title)
      (.ok recommended_books, db)

/-- `AttributeError`: attribute lookup failed on a value of the named type. -/
structure PyAttributeError where
  typeName : String
  attr : String
deriving DecidableEq, Repr

/-- `POST /generate-summary` — `generate_summary` (lines 231-237).  The
client call `model.invoke(...)` returns the response text as a plain `str`
(exactly how `get_summary` at line 208 consumes the same call), but line 235
then evaluates `response.choices[0].text.strip()`: a `str` has no attribute
`choices`, so every request raises `AttributeError` before the `Summary` is
built.  Nothing is persisted. -/
def generate_summary (llm : String → String) (content : String) : Except PyAttributeError Summary :=
  let _response := llm ("Summarize the following content: " ++ content)
  .error { typeName := "str", attr := "choices" }

/-- The arithmetic mean of the ratings of a list of review rows, as the
specification words it ("Compute the arithmetic mean of review ratings"),
for comparison with the rating computed by `get_summary`. -/
def meanRating (l : List ReviewRow) : ℚ :=
  ((l.map (fun rv => rv.rating)).sum : Int) / (l.length : ℚ)

/-! ### Sample data used by the witnesses -/

/-- A store with no rows yet (the state before the first insert). -/
def emptyDB : DB := { books := [], reviews := [] }

/-- A stored book row for concrete evaluations. -/
def sampleBook : BookRow :=
  { id := 1, title := "Dune", author := "Herbert", genre := some "sci-fi"
    year_published := .intVal 1965, summary := some "Sand." }

/-- A store holding one book (id 1) with two reviews (ratings 5 and 2). -/
def sampleDB : DB :=
  { books := [sampleBook]
    reviews := [⟨1, 1, 7, "good", 5⟩, ⟨2, 1, 8, "mediocre", 2⟩]
    nextBookId := 2, nextReviewId := 3 }

/-- `sampleDB` with its reviews inserted in the opposite order. -/
def sampleDBrev : DB :=
  { books := [sampleBook]
    reviews := [⟨2, 1, 8, "mediocre", 2⟩, ⟨1, 1, 7, "good", 5⟩]
    nextBookId := 2, nextReviewId := 3 }

/-! ### Helper lemmas -/

theorem find?_eq_none_of_all_ne {l : List BookRow} {id : Int}
    (h : ∀ r ∈ l, r.id ≠ id) : l.find? (fun r => r.id == id) = none :=
  List.find?_eq_none.mpr (fun r hr => by simp [h r hr])

theorem find?_isSome_of_mem {l : List BookRow} {id : Int}
    (h : ∃ r ∈ l, r.id = id) : ∃ b, l.find? (fun r => r.id == id) = some b := by
  have hs : (l.find? (fun r => r.id == id)).isSome := by
    rw [List.find?_isSome]
    obtain ⟨r, hr, hid⟩ := h
    exact ⟨r, hr, by simp [hid]⟩
  cases hfind : l.find? (fun r => r.id == id) with
  | none => rw [hfind] at hs; simp at hs
  | some b => exact ⟨b, rfl⟩

theorem find?_replaceFirst {p : α → Bool} {y : α} {l : List α}
    (hy : p y = true) (hl : ∃ x, l.find? p = some x) :
    (replaceFirst p y l).find? p = some y := by
  induction l with
  | nil => obtain ⟨x, hx⟩ := hl; simp [List.find?] at hx
  | cons a as ih =>
    by_cases ha : p a
    · simp [replaceFirst, ha, List.find?_cons_of_pos _ hy]
    · have ha' : p a = false := by simp [ha]
      simp only [replaceFirst, ha', Bool.false_eq_true, if_false]
      rw [List.find?_cons_of_neg _ ha]
      apply ih
      obtain ⟨x, hx⟩ := hl
      rw [List.find?_cons_of_neg _ ha] at hx
      exact ⟨x, hx⟩

theorem find?_removeFirst_of_pairwise {l : List BookRow} (id : Int)
    (h : l.Pairwise (fun a b => a.id ≠ b.id)) :
    (removeFirst (fun r => r.id == id) l).find? (fun r => r.id == id) = none := by
  induction l with
  | nil => rfl
  | cons a as ih =>
    rw [List.pairwise_cons] at h
    by_cases ha : a.id = id
    · simp only [removeFirst, ha, beq_self_eq_true, if_true]
      apply find?_eq_none_of_all_ne
      intro r hr
      rw [← ha]
      exact fun hcon => h.1 r hr hcon.symm
    · have ha' : (a.id == id) = false := by simp [ha]
      simp only [removeFirst, ha', Bool.false_eq_true, if_false]
      rw [List.find?_cons_of_neg _ (by simp [ha])]
      exact ih h.2

theorem seqOpt_eq_none_of_mem {xs : List (Option α)} (h : none ∈ xs) :
    seqOpt xs = none := by
  induction xs with
  | nil => simp at h
  | cons x xs ih =>
    cases x with
    | none => rfl
    | some a =>
      have hx : none ∈ xs := by
        rcases List.mem_cons.mp h with hc | hc
        · exact absurd hc (by simp)
        · exact hc
      simp only [seqOpt, ih hx, Option.map_none']

theorem seqOpt_eq_some_of_all_some {xs : List (Option α)} (h : ∀ x ∈ xs, x ≠ none) :
    ∃ ys, seqOpt xs = some ys := by
  induction xs with
  | nil => exact ⟨[], rfl⟩
  | cons x xs ih =>
    cases x with
    | none => exact absurd rfl (h none (List.mem_cons_self _ _))
    | some a =>
      obtain ⟨ys, hys⟩ := ih (fun y hy => h y (List.mem_cons_of_mem _ hy))
      exact ⟨a :: ys, by simp [seqOpt, hys]⟩

theorem find?_append_fresh {l : List BookRow} {row : BookRow}
    (hfresh : ∀ r ∈ l, r.id ≠ row.id) :
    (l ++ [row]).find? (fun r => r.id == row.id) = some row := by
  rw [List.find?_append, find?_eq_none_of_all_ne hfresh, Option.none_or]
  exact List.find?_cons_of_pos _ (beq_self_eq_true row.id)

/-! ### Claims -/

/-- Claim C10: every read operation — list all books, get a book by ID, list
reviews for a book, and generate a book summary — leaves both tables (the
whole store) unchanged whether it succeeds or fails, and in particular the
generated summary is never written back to the book's `summary` field. -/
theorem C10_reads_leave_store_unchanged (llm : String → String) (id : Int) (db : DB) :
    (get_books db).2 = db ∧ (get_book id db).2 = db ∧
    (get_reviews id db).2 = db ∧ (get_summary llm id db).2 = db := by
  refine ⟨rfl, ?_, ?_, ?_⟩
  · simp only [get_book]; split <;> rfl
  · simp only [get_reviews]; split <;> rfl
  · simp only [get_summary]; split
    · rfl
    · split <;> rfl

/-- Claim C6: listing reviews returns Not-Found exactly when the set of
persisted reviews with the given `book_id` is empty (the handler never
consults the `books` table, so this includes a nonexistent book), and
otherwise returns exactly the matching reviews — never an empty list. -/
theorem C6_get_reviews_404_iff_no_matching_rows (id : Int) (db : DB) :
    ((get_reviews id db).1 = .error ⟨404, "No reviews found for this book"⟩ ↔
      db.reviews.filter (fun rv => rv.book_id == id) = []) ∧
    (db.reviews.filter (fun rv => rv.book_id == id) ≠ [] →
      (get_reviews id db).1 = .ok (db.reviews.filter (fun rv => rv.book_id == id))) ∧
    (∀ l, (get_reviews id db).1 = .ok l → l ≠ []) := by
  simp only [get_reviews]
  by_cases h : db.reviews.filter (fun rv => rv.book_id == id) = []
  · rw [show (db.reviews.filter (fun rv => rv.book_id == id)).isEmpty = true from
      List.isEmpty_iff.mpr h]
    exact ⟨by simp [h], fun hc => absurd h hc, by simp⟩
  · rw [show (db.reviews.filter (fun rv => rv.book_id == id)).isEmpty = false from
      by simpa using List.isEmpty_iff.not.mpr h]
    exact ⟨by simp [h], fun _ => rfl, fun l hl => by rw [← Except.ok.inj hl]; exact h⟩

/-- Witness for C6 on concrete stores: book 1 of `sampleDB` has reviews, so
listing succeeds with the two persisted rows; id 99 has none, so it 404s. -/
theorem C6_witness :
    (get_reviews 1 sampleDB).1 = .ok [⟨1, 1, 7, "good", 5⟩, ⟨2, 1, 8, "mediocre", 2⟩] ∧
    (get_reviews 99 sampleDB).1 = .error ⟨404, "No reviews found for this book"⟩ :=
  ⟨(C6_get_reviews_404_iff_no_matching_rows 1 sampleDB).2.1 (by decide),
   (C6_get_reviews_404_iff_no_matching_rows 99 sampleDB).1.mpr (by decide)⟩

/-- Claim C5: adding a review for a book ID with no corresponding book
returns Not-Found and leaves the whole store — in particular the `reviews`
table — unchanged: nothing is persisted on the error path. -/
theorem C5_add_review_absent_book_persists_nothing (id : Int) (review : Review) (db : DB)
    (h : ∀ r ∈ db.books, r.id ≠ id) :
    add_review id review db = (.error ⟨404, "Book not found"⟩, db) := by
  unfold add_review
  rw [find?_eq_none_of_all_ne h]

/-- Witness for C5: adding a review for id 99 of `sampleDB` (whose only book
has id 1) errors and returns the store untouched. -/
theorem C5_witness :
    add_review 99 ⟨none, none, 7, "great", 4⟩ sampleDB =
      (.error ⟨404, "Book not found"⟩, sampleDB) :=
  C5_add_review_absent_book_persists_nothing 99 ⟨none, none, 7, "great", 4⟩ sampleDB
    (by decide)

/-- Claim C9 is refuted by the code: the spec declares no failure mode for
the ad-hoc generate-summary operation, but `generate_summary` evaluates
`response.choices[0].text.strip()` on the client's response, which is a
plain `str` (as `get_summary` itself consumes it), so *every* request — for
every input content and every client response — raises `AttributeError`
instead of returning a summary. -/
theorem C9_generate_summary_always_raises (llm : String → String) (content : String) :
    generate_summary llm content = .error { typeName := "str", attr := "choices" } :=
  rfl

/-- A store whose single book has a `NULL` summary (reachable: a create or
update payload with an explicit JSON `null` summary passes `Optional[str]`
validation into the nullable column). -/
def nullSummaryDB : DB :=
  { books := [{ id := 1, title := "a", author := "A", genre := some ""
                year_published := .emptyStrDefault, summary := none }]
    reviews := [], nextBookId := 2, nextReviewId := 1 }

/-- Counterexample to C8 as stated: `nullSummaryDB` stores one book, so the
claim says the operation returns exactly the stored books whose title is a
member of the response value; instead the summaries' `", ".join` raises
`TypeError` while the prompt is built — before the client is even invoked —
and no books at all are returned. -/
theorem C8_counterexample :
    nullSummaryDB.books ≠ [] ∧
    (get_recommendations (fun _ => "xay") nullSummaryDB).1 = .error .typeError ∧
    ((get_recommendations (fun _ => "xay") nullSummaryDB).1).isOk = false :=
  ⟨by decide, rfl, rfl⟩

/-- Claim C8 (amended): the recommendations operation 404s when no books are
stored; when some stored book's summary is `NULL`, the prompt's summary join
raises an unhandled `TypeError` before the client is invoked; otherwise the
raw, unparsed response string is the `in_` filter against the title column,
so exactly the stored books whose title is a member of the iterated response
value are returned. -/
theorem C8_recommendations_filter_by_raw_response (llm : String → String) (db : DB) :
    (db.books = [] →
      (get_recommendations llm db).1 = .error (.http ⟨404, "No books found"⟩)) ∧
    (db.books ≠ [] → (∃ b ∈ db.books, b.summary = none) →
      (get_recommendations llm db).1 = .error .typeError) ∧
    (db.books ≠ [] → (∀ b ∈ db.books, b.summary ≠ none) →
      ∃ prompt, recommendation_prompt db = some prompt ∧
        (get_recommendations llm db).1 =
          .ok (db.books.filter (fun b => (strElems (llm prompt)).contains b.title))) := by
  refine ⟨?_, ?_, ?_⟩
  · intro h
    simp only [get_recommendations]
    rw [show db.books.isEmpty = true from List.isEmpty_iff.mpr h]
    rfl
  · intro hne hnull
    have hmem : none ∈ db.books.map (fun b => b.summary) := by
      obtain ⟨b, hb, hbs⟩ := hnull
      exact List.mem_map.mpr ⟨b, hb, hbs⟩
    have hnone : recommendation_prompt db = none := by
      simp only [recommendation_prompt, pyJoin, seqOpt_eq_none_of_mem hmem,
        Option.map_none']
    simp only [get_recommendations]
    rw [show db.books.isEmpty = false from by simpa using List.isEmpty_iff.not.mpr hne,
      hnone]
    rfl
  · intro hne hall
    have hsome : ∃ ys, seqOpt (db.books.map (fun b => b.summary)) = some ys := by
      apply seqOpt_eq_some_of_all_some
      intro x hx
      obtain ⟨b, hb, rfl⟩ := List.mem_map.mp hx
      exact hall b hb
    obtain ⟨ys, hys⟩ := hsome
    have hp : ∃ prompt, recommendation_prompt db = some prompt := by
      simp only [recommendation_prompt, pyJoin, hys, Option.map_some']
      exact ⟨_, rfl⟩
    obtain ⟨prompt, hp⟩ := hp
    refine ⟨prompt, hp, ?_⟩
    simp only [get_recommendations]
    rw [show db.books.isEmpty = false from by simpa using List.isEmpty_iff.not.mpr hne,
      hp]
    rfl

/-- A stored book whose title is the single character `"a"`. -/
def shortTitleBook : BookRow :=
  { id := 1, title := "a", author := "A", genre := some ""
    year_published := .emptyStrDefault, summary := some "" }

/-- A store holding `shortTitleBook` and `sampleBook` (title `"Dune"`). -/
def recDB : DB :=
  { books := [shortTitleBook, sampleBook], reviews := []
    nextBookId := 3, nextReviewId := 1 }

/-- Witness for C8, exercising all three branches: the empty store 404s; the
`NULL`-summary store raises `TypeError`; and on `recDB` (all summaries
non-`NULL`), with a client answering the string `"xay"`, whose elements are
the characters `x`, `a`, `y`, the single-character title `"a"` is selected
and `"Dune"` is not, even though neither title was actually recommended. -/
theorem C8_witness :
    (get_recommendations (fun _ => "xay") emptyDB).1 =
      .error (.http ⟨404, "No books found"⟩) ∧
    (get_recommendations (fun _ => "xay") nullSummaryDB).1 = .error .typeError ∧
    (get_recommendations (fun _ => "xay") recDB).1 = .ok [shortTitleBook] := by
  refine ⟨(C8_recommendations_filter_by_raw_response (fun _ => "xay") emptyDB).1 rfl,
    (C8_recommendations_filter_by_raw_response (fun _ => "xay") nullSummaryDB).2.1
      (by decide) (by decide), ?_⟩
  obtain ⟨p, hp, h⟩ := (C8_recommendations_filter_by_raw_response (fun _ => "xay") recDB).2.2
    (by decide) (by decide)
  rw [h]
  rfl

/-- Claim C2: for every valid book payload, creating the book and then
fetching it by the identifier returned from the create operation yields a
record field-for-field equal to the created one — the payload's title,
author, genre, year and summary (defaults included) plus the generated
identifier.  The hypothesis is the autoincrement invariant: the next primary
key is not already used by a stored row. -/
theorem C2_create_then_fetch_roundtrip (book : Book) (db : DB)
    (hfresh : ∀ r ∈ db.books, r.id ≠ db.nextBookId) :
    (add_book book db).1 =
      { id := db.nextBookId, title := book.title, author := book.author,
        genre := book.genre, year_published := book.year_published,
        summary := book.summary } ∧
    (get_book (add_book book db).1.id (add_book book db).2).1 = .ok (add_book book db).1 := by
  refine ⟨rfl, ?_⟩
  have hfind : ((add_book book db).2.books).find?
      (fun r => r.id == (add_book book db).1.id) = some (add_book book db).1 :=
    find?_append_fresh hfresh
  simp only [get_book, hfind]

/-- Witness for C2, mirroring the spec's example: creating
`{title: "Dune", author: "Herbert"}` in the empty store yields id 1 with
genre, year and summary defaulted, and fetching id 1 returns that record. -/
theorem C2_witness :
    (add_book { title := "Dune", author := "Herbert" } emptyDB).1 =
      { id := 1, title := "Dune", author := "Herbert", genre := some "",
        year_published := .emptyStrDefault, summary := some "" } ∧
    (get_book (add_book { title := "Dune", author := "Herbert" } emptyDB).1.id
        (add_book { title := "Dune", author := "Herbert" } emptyDB).2).1 =
      .ok (add_book { title := "Dune", author := "Herbert" } emptyDB).1 :=
  C2_create_then_fetch_roundtrip { title := "Dune", author := "Herbert" } emptyDB
    (by decide)

/-- Claim C7: for an existing book, the stored review's `book_id` is the id
from the request path — the payload's `book_id` (universally quantified here
and absent from the conclusion) is ignored — and the payload's rating,
however out of range, is stored unchanged, along with `user_id` and
`review_text`. -/
theorem C7_review_ties_path_id_and_stores_raw_rating (id : Int) (review : Review) (db : DB)
    (h : ∃ r ∈ db.books, r.id = id) :
    ∃ rv db2, add_review id review db = (.ok rv, db2) ∧
      rv.book_id = id ∧ rv.rating = review.rating ∧ rv.user_id = review.user_id ∧
      rv.review_text = review.review_text ∧ rv.id = db.nextReviewId ∧
      db2.reviews = db.reviews ++ [rv] ∧ db2.books = db.books := by
  obtain ⟨b, hb⟩ := find?_isSome_of_mem h
  have hbid : b.id = id := by simpa using List.find?_some hb
  refine ⟨⟨db.nextReviewId, b.id, review.user_id, review.review_text, review.rating⟩,
    { db with
      reviews := db.reviews ++
        [⟨db.nextReviewId, b.id, review.user_id, review.review_text, review.rating⟩]
      nextReviewId := db.nextReviewId + 1 },
    ?_, hbid, rfl, rfl, rfl, rfl, rfl, rfl⟩
  simp only [add_review, hb]

/-- Witness for C7: a review payload carrying `book_id = 99` and the
out-of-range rating `-7`, posted for book 1 of `sampleDB`, is stored tied to
book 1 with rating `-7`. -/
theorem C7_witness :
    ∃ rv db2, add_review 1 ⟨none, some 99, 7, "great", -7⟩ sampleDB = (.ok rv, db2) ∧
      rv.book_id = 1 ∧ rv.rating = -7 ∧ rv.user_id = 7 ∧
      rv.review_text = "great" ∧ rv.id = sampleDB.nextReviewId ∧
      db2.reviews = sampleDB.reviews ++ [rv] ∧ db2.books = sampleDB.books :=
  C7_review_ties_path_id_and_stores_raw_rating 1 ⟨none, some 99, 7, "great", -7⟩ sampleDB
    (by decide)

/-- Claim C3: for an existing book ID the update overwrites every mutable
field — title, author, genre, year published, summary — with the payload's
values (optional fields included, even reset to empty values), keeping the
identifier; a subsequent fetch returns exactly the update payload.  For an
absent ID the update fails Not-Found (and changes nothing). -/
theorem C3_update_overwrites_every_mutable_field (id : Int) (book : Book) (db : DB) :
    ((∃ r ∈ db.books, r.id = id) →
      (update_book id book db).1 =
        .ok { id := id, title := book.title, author := book.author, genre := book.genre,
              year_published := book.year_published, summary := book.summary } ∧
      (get_book id (update_book id book db).2).1 =
        .ok { id := id, title := book.title, author := book.author, genre := book.genre,
              year_published := book.year_published, summary := book.summary }) ∧
    ((∀ r ∈ db.books, r.id ≠ id) →
      update_book id book db = (.error ⟨404, "Book not found"⟩, db)) := by
  constructor
  · intro h
    obtain ⟨b, hb⟩ := find?_isSome_of_mem h
    have hbid : b.id = id := by simpa using List.find?_some hb
    have hrow : ({ b with
          title := book.title, author := book.author, genre := book.genre,
          year_published := book.year_published, summary := book.summary } : BookRow) =
        { id := id, title := book.title, author := book.author, genre := book.genre,
          year_published := book.year_published, summary := book.summary } := by
      rw [← hbid]
    constructor
    · simp only [update_book, hb, hrow]
    · have hupd : (replaceFirst (fun r => r.id == id)
          ({ b with
             title := book.title, author := book.author, genre := book.genre,
             year_published := book.year_published, summary := book.summary } : BookRow)
          db.books).find? (fun r => r.id == id) =
          some { b with
                 title := book.title, author := book.author, genre := book.genre,
                 year_published := book.year_published, summary := book.summary } :=
        find?_replaceFirst (by simp [hbid]) ⟨b, hb⟩
      rw [hrow] at hupd
      simp only [update_book, hb, hrow, get_book, hupd]
  · intro h
    simp only [update_book, find?_eq_none_of_all_ne h]

/-- Witness for C3: updating book 1 of `sampleDB` with a payload whose
optional fields are cleared overwrites every field (fetch included), and
updating the absent id 99 fails Not-Found. -/
theorem C3_witness :
    ((update_book 1 ⟨none, "Emma", "Austen", none, .null, none⟩ sampleDB).1 =
        .ok { id := 1, title := "Emma", author := "Austen", genre := none,
              year_published := .null, summary := none } ∧
      (get_book 1 (update_book 1 ⟨none, "Emma", "Austen", none, .null, none⟩ sampleDB).2).1 =
        .ok { id := 1, title := "Emma", author := "Austen", genre := none,
              year_published := .null, summary := none }) ∧
    update_book 99 ⟨none, "Emma", "Austen", none, .null, none⟩ sampleDB =
      (.error ⟨404, "Book not found"⟩, sampleDB) :=
  ⟨(C3_update_overwrites_every_mutable_field 1 ⟨none, "Emma", "Austen", none, .null, none⟩
      sampleDB).1 (by decide),
   (C3_update_overwrites_every_mutable_field 99 ⟨none, "Emma", "Austen", none, .null, none⟩
      sampleDB).2 (by decide)⟩

/-- Claim C4: deleting an existing book succeeds and a subsequent fetch of
that ID fails Not-Found (given the primary-key invariant that stored ids are
pairwise distinct); deleting an absent ID itself fails Not-Found; and the
delete never touches the `reviews` table — no cascade. -/
theorem C4_delete_then_fetch_not_found (id : Int) (db : DB)
    (hnodup : db.books.Pairwise (fun a b => a.id ≠ b.id)) :
    ((∃ r ∈ db.books, r.id = id) →
      (delete_book id db).1 = .ok "Book deleted successfully" ∧
      (get_book id (delete_book id db).2).1 = .error ⟨404, "Book not found"⟩) ∧
    ((∀ r ∈ db.books, r.id ≠ id) →
      delete_book id db = (.error ⟨404, "Book not found"⟩, db)) ∧
    (delete_book id db).2.reviews = db.reviews := by
  refine ⟨?_, ?_, ?_⟩
  · intro h
    obtain ⟨b, hb⟩ := find?_isSome_of_mem h
    refine ⟨by simp only [delete_book, hb], ?_⟩
    have hnone := find?_removeFirst_of_pairwise id hnodup
    simp only [delete_book, hb, get_book, hnone]
  · intro h
    simp only [delete_book, find?_eq_none_of_all_ne h]
  · simp only [delete_book]
    split <;> rfl

/-- Witness for C4: deleting book 1 of `sampleDB` succeeds, fetching 1
afterwards 404s, deleting the absent id 99 404s, and in both cases the two
persisted reviews are left untouched. -/
theorem C4_witness :
    ((delete_book 1 sampleDB).1 = .ok "Book deleted successfully" ∧
      (get_book 1 (delete_book 1 sampleDB).2).1 = .error ⟨404, "Book not found"⟩) ∧
    delete_book 99 sampleDB = (.error ⟨404, "Book not found"⟩, sampleDB) ∧
    (delete_book 1 sampleDB).2.reviews = sampleDB.reviews :=
  ⟨(C4_delete_then_fetch_not_found 1 sampleDB (by decide)).1 (by decide),
   (C4_delete_then_fetch_not_found 99 sampleDB (by decide)).2.1 (by decide),
   (C4_delete_then_fetch_not_found 1 sampleDB (by decide)).2.2⟩

/-- Claim C1: for every book and non-empty set of persisted reviews for it,
the rating returned by the summary endpoint equals the arithmetic mean of
all persisted ratings for that book, and the value is the same for every
insertion order of those reviews (any permutation of the `reviews` table
over the same `books` table yields the same rating). -/
theorem C1_summary_rating_is_order_independent_mean (llm : String → String)
    (db db2 : DB) (id : Int)
    (hbooks : db2.books = db.books)
    (hperm : db.reviews.Perm db2.reviews)
    (hbook : ∃ r ∈ db.books, r.id = id)
    (hrev : db.reviews.filter (fun rv => rv.book_id == id) ≠ []) :
    ∃ s s2, (get_summary llm id db).1 = .ok s ∧ (get_summary llm id db2).1 = .ok s2 ∧
      s.rating = meanRating (db.reviews.filter (fun rv => rv.book_id == id)) ∧
      s2.rating = s.rating := by
  obtain ⟨b, hb⟩ := find?_isSome_of_mem hbook
  have hb2 : db2.books.find? (fun r => r.id == id) = some b := by rw [hbooks]; exact hb
  have hpf : (db.reviews.filter (fun rv => rv.book_id == id)).Perm
      (db2.reviews.filter (fun rv => rv.book_id == id)) := hperm.filter _
  have hrev2 : db2.reviews.filter (fun rv => rv.book_id == id) ≠ [] := by
    intro hc
    exact hrev (List.Perm.eq_nil (hc ▸ hpf))
  have hie : (db.reviews.filter (fun rv => rv.book_id == id)).isEmpty = false := by
    simpa using List.isEmpty_iff.not.mpr hrev
  have hie2 : (db2.reviews.filter (fun rv => rv.book_id == id)).isEmpty = false := by
    simpa using List.isEmpty_iff.not.mpr hrev2
  have hmean : meanRating (db2.reviews.filter (fun rv => rv.book_id == id)) =
      meanRating (db.reviews.filter (fun rv => rv.book_id == id)) := by
    unfold meanRating
    rw [hpf.length_eq, (hpf.map (fun rv => rv.rating)).sum_eq]
  have e1 : (get_summary llm id db).1 =
      .ok { summary := llm ("Summarize the following reviews: " ++
              String.intercalate " " ((db.reviews.filter (fun rv => rv.book_id == id)).map
                (fun rv => rv.review_text)))
            rating := meanRating (db.reviews.filter (fun rv => rv.book_id == id)) } := by
    simp only [get_summary, hb, hie, Bool.false_eq_true, if_false, meanRating]
  have e2 : (get_summary llm id db2).1 =
      .ok { summary := llm ("Summarize the following reviews: " ++
              String.intercalate " " ((db2.reviews.filter (fun rv => rv.book_id == id)).map
                (fun rv => rv.review_text)))
            rating := meanRating (db2.reviews.filter (fun rv => rv.book_id == id)) } := by
    simp only [get_summary, hb2, hie2, Bool.false_eq_true, if_false, meanRating]
  exact ⟨_, _, e1, e2, rfl, hmean⟩

/-- Witness for C1: `sampleDB` and `sampleDBrev` hold book 1's reviews
(ratings 5 and 2) in opposite insertion orders; the summary endpoint
succeeds on both with the same rating, the arithmetic mean. -/
theorem C1_witness :
    ∃ s s2, (get_summary (fun _ => "generated text") 1 sampleDB).1 = .ok s ∧
      (get_summary (fun _ => "generated text") 1 sampleDBrev).1 = .ok s2 ∧
      s.rating = meanRating (sampleDB.reviews.filter (fun rv => rv.book_id == 1)) ∧
      s2.rating = s.rating :=
  C1_summary_rating_is_order_independent_mean (fun _ => "generated text")
    sampleDB sampleDBrev 1 (by decide) (by decide) (by decide) (by decide)

end BookReviewAPI
